import Mathlib

/-!
Shallow embedding of the HR-management backend (FastAPI + SQLAlchemy)
under verification.  Monetary amounts are Python `Decimal` values, whose
addition and subtraction are exact; we model them as rationals.  Dates and
timestamps are modelled as natural numbers (only equality and presence
matter to the handlers).  A SQLAlchemy table is a list of rows; `.first()`
on a filtered query is `List.find?`; mutating the returned ORM object is
replacing the first row matching the same filter.
-/

namespace Hrms

/-- Row of the `salary_structures` table (`app/models/salary.py`): six
additive components and two deduction components, all `Numeric(10,2)`. -/
structure SalaryStructure where
  id : Nat
  employee_profile_id : Nat
  basic_salary : ℚ
  hra : ℚ
  standard_allowance : ℚ
  performance_bonus : ℚ
  lta : ℚ
  fixed_allowance : ℚ
  professional_tax : ℚ
  pf_contribution : ℚ
deriving Repr, DecidableEq

/-- The dict returned by `calculate_net_salary`
(`app/services/salary_service.py`). -/
structure SalaryCalcResult where
  gross_salary : ℚ
  total_deductions : ℚ
  net_salary : ℚ
deriving Repr, DecidableEq

/-- `calculate_net_salary` from `app/services/salary_service.py`. -/
def calculate_net_salary (salary_structure : SalaryStructure) : SalaryCalcResult :=
  let gross_salary :=
    salary_structure.basic_salary +
    salary_structure.hra +
    salary_structure.standard_allowance +
    salary_structure.performance_bonus +
    salary_structure.lta +
    salary_structure.fixed_allowance
  let total_deductions :=
    salary_structure.professional_tax +
    salary_structure.pf_contribution
  let net_salary := gross_salary - total_deductions
  { gross_salary := gross_salary
    total_deductions := total_deductions
    net_salary := net_salary }

/-- Error taxonomy of the request handlers: `HTTPException` status codes
404 (not found), 400 (conflict) and 403 (forbidden), with their `detail`
message. -/
inductive ApiError where
  | notFound (detail : String)
  | conflict (detail : String)
  | forbidden (detail : String)
deriving Repr, DecidableEq

/-- `AttendanceStatus` enum (`app/models/attendance.py`). -/
inductive AttendanceStatus where
  | present
  | absent
  | half_day
  | leave
deriving Repr, DecidableEq

/-- Row of the `employee_profiles` table, restricted to the columns the
attendance handlers read (`id`, `user_id`). -/
structure EmployeeProfile where
  id : Nat
  user_id : Nat
deriving Repr, DecidableEq

/-- Row of the `attendances` table (`app/models/attendance.py`). -/
structure Attendance where
  id : Nat
  employee_profile_id : Nat
  date : Nat
  check_in_time : Option Nat
  check_out_time : Option Nat
  status : AttendanceStatus
  notes : Option String
deriving Repr, DecidableEq

/-- Replace the first element satisfying `p` with `a` (the model of
mutating the ORM object returned by `query(...).filter(...).first()`
and committing). -/
def replaceFirst {α : Type} (p : α → Bool) (a : α) : List α → List α
  | [] => []
  | x :: xs => if p x then a :: xs else x :: replaceFirst p a xs

/-- Database state seen by the attendance endpoints: the profile and
attendance tables plus the primary-key counter the database uses for
newly inserted attendance rows. -/
structure AttendanceStore where
  profiles : List EmployeeProfile
  attendances : List Attendance
  nextId : Nat
deriving Repr, DecidableEq

/-- The filter of the attendance-by-day query used by `check_in`,
`check_out` and `manual_attendance_entry`:
`Attendance.employee_profile_id == eid, Attendance.date == d`. -/
def attFilter (eid d : Nat) (a : Attendance) : Bool :=
  a.employee_profile_id == eid && a.date == d

/-- `POST /attendance/check-in` (`check_in` in `app/api/attendance.py`).
`current_user_id` is the authenticated caller, `today` is `date.today()`
and `now` is `datetime.now()`. -/
def check_in (current_user_id today now : Nat) (db : AttendanceStore) :
    Except ApiError (AttendanceStore × Attendance) :=
  match db.profiles.find? (fun p => p.user_id == current_user_id) with
  | none => .error (.notFound "Employee profile not found for this user")
  | some employee_profile =>
    match db.attendances.find? (attFilter employee_profile.id today) with
    | some existing_attendance =>
      if existing_attendance.check_in_time.isSome then
        .error (.conflict "Already checked in for today")
      else
        let updated := { existing_attendance with
          check_in_time := some now, status := AttendanceStatus.present }
        let rows := replaceFirst (attFilter employee_profile.id today) updated db.attendances
        let db2 := { db with attendances := rows }
        .ok (db2, updated)
    | none =>
      let new_attendance : Attendance :=
        { id := db.nextId
          employee_profile_id := employee_profile.id
          date := today
          check_in_time := some now
          check_out_time := none
          status := AttendanceStatus.present
          notes := none }
      let rows := db.attendances ++ [new_attendance]
      .ok ({ db with attendances := rows, nextId := db.nextId + 1 }, new_attendance)

/-- `POST /attendance/check-out` (`check_out` in `app/api/attendance.py`). -/
def check_out (current_user_id today now : Nat) (db : AttendanceStore) :
    Except ApiError (AttendanceStore × Attendance) :=
  match db.profiles.find? (fun p => p.user_id == current_user_id) with
  | none => .error (.notFound "Employee profile not found for this user")
  | some employee_profile =>
    match db.attendances.find? (attFilter employee_profile.id today) with
    | none => .error (.conflict "You have not checked in today")
    | some attendance_record =>
      if attendance_record.check_in_time.isNone then
        .error (.conflict "You have not checked in today")
      else if attendance_record.check_out_time.isSome then
        .error (.conflict "Already checked out for today")
      else
        let updated := { attendance_record with check_out_time := some now }
        let rows := replaceFirst (attFilter employee_profile.id today) updated db.attendances
        let db2 := { db with attendances := rows }
        .ok (db2, updated)

/-- Payload of `POST /attendance/manual`.  The pydantic schema module for
attendance is not in the provided source tree; its fields are exactly those
`manual_attendance_entry` reads and those `Attendance(**model_dump())`
requires: employee profile id, date, optional check-in and check-out
times, status and notes. -/
structure AttendanceManualCreate where
  employee_profile_id : Nat
  date : Nat
  check_in_time : Option Nat
  check_out_time : Option Nat
  status : AttendanceStatus
  notes : Option String
deriving Repr, DecidableEq

/-- `POST /attendance/manual` (`manual_attendance_entry` in
`app/api/attendance.py`), privileged upsert by (employee, date). -/
def manual_attendance_entry (attendance_in : AttendanceManualCreate) (db : AttendanceStore) :
    Except ApiError (AttendanceStore × Attendance) :=
  match db.profiles.find? (fun p => p.id == attendance_in.employee_profile_id) with
  | none => .error (.notFound "Employee profile not found")
  | some _ =>
    match db.attendances.find? (attFilter attendance_in.employee_profile_id attendance_in.date) with
    | some attendance =>
      let updated := { attendance with
        check_in_time := attendance_in.check_in_time
        check_out_time := attendance_in.check_out_time
        status := attendance_in.status
        notes := attendance_in.notes }
      let rows := replaceFirst (attFilter attendance_in.employee_profile_id attendance_in.date)
        updated db.attendances
      let db2 := { db with attendances := rows }
      .ok (db2, updated)
    | none =>
      let attendance : Attendance :=
        { id := db.nextId
          employee_profile_id := attendance_in.employee_profile_id
          date := attendance_in.date
          check_in_time := attendance_in.check_in_time
          check_out_time := attendance_in.check_out_time
          status := attendance_in.status
          notes := attendance_in.notes }
      let rows := db.attendances ++ [attendance]
      .ok ({ db with attendances := rows, nextId := db.nextId + 1 }, attendance)

/-- The attendance-table key of a row: (employee profile, date). -/
def attKey (a : Attendance) : Nat × Nat :=
  (a.employee_profile_id, a.date)

/-- The central attendance invariant: at most one record per
(employee, date). -/
def uniquePerEmployeeDate (l : List Attendance) : Prop :=
  (l.map attKey).Nodup

instance (l : List Attendance) : Decidable (uniquePerEmployeeDate l) :=
  inferInstanceAs (Decidable (List.Nodup _))

/-- The store an endpoint leaves behind: the new store on success, the
unchanged store when the handler aborts with an `HTTPException` (the
exception is raised before any commit). -/
def resultStore (db : AttendanceStore) :
    Except ApiError (AttendanceStore × Attendance) → AttendanceStore
  | .ok (db2, _) => db2
  | .error _ => db

/-- `CorrectionRequestStatus` enum (`app/models/attendance_correction.py`). -/
inductive CorrectionRequestStatus where
  | pending
  | approved
  | rejected
deriving Repr, DecidableEq

/-- Row of the `attendance_correction_requests` table
(`app/models/attendance_correction.py`). -/
structure AttendanceCorrectionRequest where
  id : Nat
  attendance_id : Nat
  requested_by_id : Nat
  reason : String
  requested_check_in_time : Option Nat
  requested_check_out_time : Option Nat
  status : CorrectionRequestStatus
  reviewed_by_id : Option Nat
  reviewed_at : Option Nat
  reviewer_comments : Option String
deriving Repr, DecidableEq

/-- Database state seen by the correction-request endpoints. -/
structure CorrectionStore where
  requests : List AttendanceCorrectionRequest
  attendances : List Attendance
deriving Repr, DecidableEq

/-- `PUT /attendance-correction/(request_id)/approve`
(`approve_correction_request` in `app/api/attendance_correction.py`).
`current_user_id` is the privileged reviewer, `now` is `datetime.now()`. -/
def approve_correction_request (request_id current_user_id now : Nat)
    (db : CorrectionStore) :
    Except ApiError (CorrectionStore × AttendanceCorrectionRequest) :=
  match db.requests.find? (fun r => r.id == request_id) with
  | none => .error (.notFound "Correction request not found")
  | some db_request =>
    if db_request.status != CorrectionRequestStatus.pending then
      .error (.conflict "Request is not pending")
    else
      let updated_request := { db_request with
        status := CorrectionRequestStatus.approved
        reviewed_by_id := some current_user_id
        reviewed_at := some now }
      let new_attendances :=
        match db.attendances.find? (fun a => a.id == db_request.attendance_id) with
        | some attendance =>
          let patched := { attendance with
            check_in_time := db_request.requested_check_in_time
            check_out_time := db_request.requested_check_out_time }
          replaceFirst (fun a => a.id == db_request.attendance_id) patched db.attendances
        | none => db.attendances
      let new_requests := replaceFirst (fun r => r.id == request_id) updated_request db.requests
      .ok ({ requests := new_requests, attendances := new_attendances }, updated_request)

/-- `UserRole` enum (`app/models/user.py`). -/
inductive UserRole where
  | admin
  | hr_officer
  | employee
deriving Repr, DecidableEq

/-- Row of the `users` table (`app/models/user.py`), restricted to the
columns the handlers under verification read and write. -/
structure User where
  id : Nat
  email : String
  hashed_password : String
  role : UserRole
  is_active : Bool
deriving Repr, DecidableEq

/-- `UserUpdate` pydantic schema (`app/schemas/user.py`): every field
optional; `none` models a field absent from the request body. -/
structure UserUpdate where
  email : Option String
  role : Option UserRole
  is_active : Option Bool
  password : Option String
deriving Repr, DecidableEq

/-- `UserCreate` pydantic schema (`app/schemas/user.py`). -/
structure UserCreate where
  email : String
  role : UserRole
  is_active : Bool
  password : String
deriving Repr, DecidableEq

/-- `GET /users/(user_id)` (`read_user` in `app/api/users.py`).  The
authorization gate is `current_user.id != user_id and current_user.role !=
UserRole.ADMIN`. -/
def read_user (user_id : Nat) (current_user : User) (users : List User) :
    Except ApiError User :=
  match users.find? (fun u => u.id == user_id) with
  | none => .error (.notFound "User not found")
  | some db_user =>
    if current_user.id != user_id && current_user.role != UserRole.admin then
      .error (.forbidden "Not authorized to access this user profile")
    else
      .ok db_user

/-- `PUT /users/(user_id)` (`update_user` in `app/api/users.py`).
`hash` is the external `get_password_hash` collaborator.  The pydantic
`exclude_unset` dump is modelled by the `Option` fields; a present but
empty password string leaves the password column untouched (the Python
truthiness test). -/
def update_user (user_id : Nat) (user_in : UserUpdate) (current_user : User)
    (hash : String → String) (users : List User) :
    Except ApiError (List User × User) :=
  match users.find? (fun u => u.id == user_id) with
  | none => .error (.notFound "User not found")
  | some db_user =>
    if current_user.id != user_id && current_user.role != UserRole.admin then
      .error (.forbidden "Not authorized to update this user")
    else
      let u1 := match user_in.email with
        | some e => { db_user with email := e }
        | none => db_user
      let u2 := match user_in.role with
        | some r => { u1 with role := r }
        | none => u1
      let u3 := match user_in.is_active with
        | some b => { u2 with is_active := b }
        | none => u2
      let u4 := match user_in.password with
        | some pw => if pw != "" then { u3 with hashed_password := hash pw } else u3
        | none => u3
      .ok (replaceFirst (fun u => u.id == user_id) u4 users, u4)

/-- Row of the `user_settings` table (`app/models/user_settings.py`);
column defaults are notifications on, light theme, English. -/
structure UserSettings where
  id : Nat
  user_id : Nat
  receive_notifications : Bool
  theme : String
  language : String
deriving Repr, DecidableEq

/-- The column defaults of a fresh `UserSettings(user_id=uid)` row. -/
def defaultUserSettings (idv uid : Nat) : UserSettings :=
  { id := idv
    user_id := uid
    receive_notifications := true
    theme := "light"
    language := "en" }

/-- `UserSettingsUpdate` pydantic schema (`app/schemas/user_settings.py`). -/
structure UserSettingsUpdate where
  receive_notifications : Option Bool
  theme : Option String
  language : Option String
deriving Repr, DecidableEq

/-- Row of the `activity_logs` table as written by `log_activity`
(`app/services/activity_service.py`). -/
structure ActivityLog where
  user_id : Nat
  action : String
  details : Option String
deriving Repr, DecidableEq

/-- Database state seen by the auth and settings endpoints. -/
structure SettingsStore where
  users : List User
  settings : List UserSettings
  activity_logs : List ActivityLog
  nextUserId : Nat
  nextSettingsId : Nat
deriving Repr, DecidableEq

/-- `GET /settings/me` (`get_my_settings` in `app/api/settings.py`): total,
returns the existing row or inserts and returns a fresh default row. -/
def get_my_settings (current_user : User) (db : SettingsStore) :
    SettingsStore × UserSettings :=
  match db.settings.find? (fun s => s.user_id == current_user.id) with
  | some user_settings => (db, user_settings)
  | none =>
    let user_settings := defaultUserSettings db.nextSettingsId current_user.id
    let rows := db.settings ++ [user_settings]
    ({ db with settings := rows, nextSettingsId := db.nextSettingsId + 1 },
     user_settings)

/-- `PUT /settings/me` (`update_my_settings` in `app/api/settings.py`). -/
def update_my_settings (settings_update : UserSettingsUpdate)
    (current_user : User) (db : SettingsStore) :
    Except ApiError (SettingsStore × UserSettings) :=
  match db.settings.find? (fun s => s.user_id == current_user.id) with
  | none => .error (.notFound "User settings not found")
  | some user_settings =>
    let s1 := match settings_update.receive_notifications with
      | some b => { user_settings with receive_notifications := b }
      | none => user_settings
    let s2 := match settings_update.theme with
      | some t => { s1 with theme := t }
      | none => s1
    let s3 := match settings_update.language with
      | some l => { s2 with language := l }
      | none => s2
    let rows := replaceFirst (fun s => s.user_id == current_user.id) s3 db.settings
    .ok ({ db with settings := rows }, s3)

/-- `POST /auth/register` (`register_user` in `app/api/auth.py`): inserts
the user, then a default settings row for it, then an activity-log row.
`hash` is the external `get_password_hash` collaborator. -/
def register_user (user : UserCreate) (hash : String → String)
    (db : SettingsStore) : Except ApiError (SettingsStore × User) :=
  match db.users.find? (fun u => u.email == user.email) with
  | some _ => .error (.conflict "Email already registered")
  | none =>
    let db_user : User :=
      { id := db.nextUserId
        email := user.email
        hashed_password := hash user.password
        role := user.role
        is_active := user.is_active }
    let user_settings := defaultUserSettings db.nextSettingsId db_user.id
    let log : ActivityLog :=
      { user_id := db_user.id
        action := "User registration"
        details := some ("User " ++ db_user.email ++ " registered.") }
    .ok ({ users := db.users ++ [db_user]
           settings := db.settings ++ [user_settings]
           activity_logs := db.activity_logs ++ [log]
           nextUserId := db.nextUserId + 1
           nextSettingsId := db.nextSettingsId + 1 }, db_user)

/-- Concrete store with one employee profile and no attendance rows, used
to evaluate the endpoints on explicit inputs. -/
def exAttDb : AttendanceStore :=
  { profiles := [{ id := 1, user_id := 10 }]
    attendances := []
    nextId := 0 }

/-- Concrete attendance row with a check-in and no check-out. -/
def exAttRow : Attendance :=
  { id := 0
    employee_profile_id := 1
    date := 5
    check_in_time := some 8
    check_out_time := none
    status := AttendanceStatus.present
    notes := none }

/-- Concrete store whose single attendance row has a check-in and no
check-out. -/
def exAttDb2 : AttendanceStore :=
  { profiles := [{ id := 1, user_id := 10 }]
    attendances := [exAttRow]
    nextId := 1 }

/-- Concrete manual-entry payload. -/
def exManualPayload : AttendanceManualCreate :=
  { employee_profile_id := 1
    date := 5
    check_in_time := some 8
    check_out_time := some 17
    status := AttendanceStatus.half_day
    notes := some "edited" }

/-- Concrete pending correction request targeting attendance row 0. -/
def exCorrReq : AttendanceCorrectionRequest :=
  { id := 3
    attendance_id := 0
    requested_by_id := 10
    reason := "forgot badge"
    requested_check_in_time := some 9
    requested_check_out_time := some 18
    status := CorrectionRequestStatus.pending
    reviewed_by_id := none
    reviewed_at := none
    reviewer_comments := none }

/-- Concrete correction store whose target attendance row exists. -/
def exCorrDb : CorrectionStore :=
  { requests := [exCorrReq]
    attendances := [exAttRow] }

/-- Concrete correction store whose target attendance row is missing. -/
def exCorrDbMissing : CorrectionStore :=
  { requests := [exCorrReq]
    attendances := [] }

/-- Concrete hr_officer account, not the owner of user 2. -/
def exHrOfficer : User :=
  { id := 1
    email := "hr@example.com"
    hashed_password := "h1"
    role := UserRole.hr_officer
    is_active := true }

/-- Concrete employee account owning user id 2. -/
def exEmployeeUser : User :=
  { id := 2
    email := "emp@example.com"
    hashed_password := "h2"
    role := UserRole.employee
    is_active := true }

/-- Concrete admin account. -/
def exAdmin : User :=
  { id := 3
    email := "admin@example.com"
    hashed_password := "h3"
    role := UserRole.admin
    is_active := true }

/-- Concrete users table. -/
def exUsers : List User :=
  [exHrOfficer, exEmployeeUser, exAdmin]

/-- Concrete empty update payload. -/
def exNoUpdate : UserUpdate :=
  { email := none
    role := none
    is_active := none
    password := none }

/-- Concrete settings store with no settings row for user 10. -/
def exSettingsDb : SettingsStore :=
  { users := [{ id := 10
                email := "ten@example.com"
                hashed_password := "h10"
                role := UserRole.employee
                is_active := true }]
    settings := []
    activity_logs := []
    nextUserId := 20
    nextSettingsId := 30 }

/-- Concrete active user whose settings row does not exist. -/
def exSettingsUser : User :=
  { id := 10
    email := "ten@example.com"
    hashed_password := "h10"
    role := UserRole.employee
    is_active := true }

/-- Concrete registration payload with a fresh email. -/
def exUserCreate : UserCreate :=
  { email := "new@example.com"
    role := UserRole.employee
    is_active := true
    password := "pw" }

/-- Concrete empty settings-update payload. -/
def exSettingsUpdate : UserSettingsUpdate :=
  { receive_notifications := some false
    theme := none
    language := none }

end Hrms

open Hrms

theorem attFilter_iff (eid d : Nat) (x : Attendance) :
    attFilter eid d x = true ↔ attKey x = (eid, d) := by
  simp [attFilter, attKey, Bool.and_eq_true, Prod.ext_iff]

theorem map_attKey_replaceFirst (p : Attendance → Bool) (a : Attendance)
    (l : List Attendance) (h : ∀ x ∈ l, p x = true → attKey x = attKey a) :
    (replaceFirst p a l).map attKey = l.map attKey := by
  induction l with
  | nil => rfl
  | cons x xs ih =>
    simp only [replaceFirst]
    by_cases hx : p x = true
    · rw [if_pos hx]
      simp [(h x (by simp) hx).symm]
    · rw [if_neg hx]
      simp [ih (fun y hy hpy => h y (by simp [hy]) hpy)]

theorem find?_replaceFirst_self {α : Type} (p : α → Bool) (a : α)
    (hp : p a = true) :
    ∀ (l : List α) (b : α), l.find? p = some b →
      (replaceFirst p a l).find? p = some a := by
  intro l
  induction l with
  | nil => intro b hb; simp at hb
  | cons x xs ih =>
    intro b hb
    by_cases hx : p x = true
    · simp only [replaceFirst, if_pos hx]
      simp [List.find?_cons_of_pos _ hp]
    · simp only [replaceFirst, if_neg hx]
      rw [List.find?_cons_of_neg _ (by simpa using hx)] at hb ⊢
      exact ih b hb

theorem replaceFirst_replaceFirst {α : Type} (p : α → Bool) (a : α)
    (hp : p a = true) (l : List α) :
    replaceFirst p a (replaceFirst p a l) = replaceFirst p a l := by
  induction l with
  | nil => rfl
  | cons x xs ih =>
    by_cases hx : p x = true
    · simp only [replaceFirst, if_pos hx, if_pos hp]
    · simp only [replaceFirst, if_neg hx, ih]

theorem find?_append_of_none {α : Type} (p : α → Bool) (l : List α) (a : α)
    (h : l.find? p = none) (hp : p a = true) :
    (l ++ [a]).find? p = some a := by
  induction l with
  | nil => simp [List.find?_cons_of_pos _ hp]
  | cons x xs ih =>
    have hx : ¬ p x = true := by
      intro hx
      rw [List.find?_cons_of_pos _ hx] at h
      exact Option.some_ne_none x h
    rw [List.find?_cons_of_neg _ hx] at h
    rw [List.cons_append, List.find?_cons_of_neg _ hx]
    exact ih h

theorem replaceFirst_append_of_none {α : Type} (p : α → Bool) (l : List α)
    (a : α) (h : l.find? p = none) :
    replaceFirst p a (l ++ [a]) = l ++ [a] := by
  induction l with
  | nil => by_cases hp : p a = true <;> simp [replaceFirst, hp]
  | cons x xs ih =>
    have hx : ¬ p x = true := by
      intro hx
      rw [List.find?_cons_of_pos _ hx] at h
      exact Option.some_ne_none x h
    rw [List.find?_cons_of_neg _ hx] at h
    simp only [List.cons_append, replaceFirst, if_neg hx, List.append_eq, ih h]

/-- Claim C1: for every salary structure, `calculate_net_salary` returns
`gross_salary` equal to the exact sum of the six additive components,
`total_deductions` equal to the exact sum of `professional_tax` and
`pf_contribution`, and `net_salary` equal to their difference; the function
is total over all rational inputs (negative values included), with exact
arithmetic and no error condition. -/
theorem calculate_net_salary_spec (s : Hrms.SalaryStructure) :
    (Hrms.calculate_net_salary s).gross_salary =
      s.basic_salary + s.hra + s.standard_allowance +
      s.performance_bonus + s.lta + s.fixed_allowance ∧
    (Hrms.calculate_net_salary s).total_deductions =
      s.professional_tax + s.pf_contribution ∧
    (Hrms.calculate_net_salary s).net_salary =
      (Hrms.calculate_net_salary s).gross_salary -
      (Hrms.calculate_net_salary s).total_deductions := by
  refine ⟨rfl, rfl, rfl⟩

theorem uniquePerEmployeeDate_replace (eid d : Nat) (upd : Attendance)
    (hupd : attKey upd = (eid, d)) (l : List Attendance)
    (h : uniquePerEmployeeDate l) :
    uniquePerEmployeeDate (replaceFirst (attFilter eid d) upd l) := by
  unfold uniquePerEmployeeDate at h ⊢
  rw [map_attKey_replaceFirst]
  · exact h
  · intro x hx hpx
    rw [(attFilter_iff eid d x).1 hpx, hupd]

theorem uniquePerEmployeeDate_append (eid d : Nat) (a : Attendance)
    (ha : attKey a = (eid, d)) (l : List Attendance)
    (h : uniquePerEmployeeDate l)
    (hnone : l.find? (attFilter eid d) = none) :
    uniquePerEmployeeDate (l ++ [a]) := by
  unfold uniquePerEmployeeDate at h ⊢
  rw [List.map_append, List.nodup_append]
  refine ⟨h, by simp, ?_⟩
  intro k hk hk2
  have hk3 : k = attKey a := by simpa using hk2
  subst hk3
  rw [ha] at hk
  obtain ⟨x, hxl, hxk⟩ := List.mem_map.mp hk
  have hfx := List.find?_eq_none.mp hnone x hxl
  exact hfx ((attFilter_iff eid d x).mpr hxk)

/-- Claim C2: starting from a store in which at most one attendance record
exists per (employee, date), both `check_in` and
`manual_attendance_entry` preserve that invariant: each first looks up the
record for the key and updates it in place, and inserts a new row only
when no record for the key exists. -/
theorem attendance_unique_per_day_preserved (db : AttendanceStore)
    (h : uniquePerEmployeeDate db.attendances)
    (current_user_id today now : Nat)
    (attendance_in : AttendanceManualCreate) :
    uniquePerEmployeeDate
      (resultStore db (check_in current_user_id today now db)).attendances ∧
    uniquePerEmployeeDate
      (resultStore db (manual_attendance_entry attendance_in db)).attendances := by
  constructor
  · cases hp : db.profiles.find? (fun p => p.user_id == current_user_id) with
    | none => simpa only [check_in, hp, resultStore] using h
    | some ep =>
      cases ha : db.attendances.find? (attFilter ep.id today) with
      | some ex =>
        by_cases hc : ex.check_in_time.isSome = true
        · simpa only [check_in, hp, ha, hc, if_true, resultStore] using h
        · have hkey : attKey ex = (ep.id, today) :=
            (attFilter_iff ep.id today ex).mp (List.find?_some ha)
          simp only [check_in, hp, ha, hc, if_false, Bool.false_eq_true, resultStore]
          refine uniquePerEmployeeDate_replace ep.id today _ ?_ db.attendances h
          simpa [attKey] using hkey
      | none =>
        simp only [check_in, hp, ha, resultStore]
        refine uniquePerEmployeeDate_append ep.id today _ ?_ db.attendances h ha
        simp [attKey]
  · cases hp : db.profiles.find?
        (fun p => p.id == attendance_in.employee_profile_id) with
    | none => simpa only [manual_attendance_entry, hp, resultStore] using h
    | some ep =>
      cases ha : db.attendances.find?
          (attFilter attendance_in.employee_profile_id attendance_in.date) with
      | some ex =>
        have hkey : attKey ex =
            (attendance_in.employee_profile_id, attendance_in.date) :=
          (attFilter_iff _ _ ex).mp (List.find?_some ha)
        simp only [manual_attendance_entry, hp, ha, resultStore]
        refine uniquePerEmployeeDate_replace _ _ _ ?_ db.attendances h
        simpa [attKey] using hkey
      | none =>
        simp only [manual_attendance_entry, hp, ha, resultStore]
        refine uniquePerEmployeeDate_append _ _ _ ?_ db.attendances h ha
        simp [attKey]

/-- Witness for C2 at a concrete store and payload. -/
theorem attendance_unique_per_day_preserved_witness :
    uniquePerEmployeeDate exAttDb.attendances ∧
    uniquePerEmployeeDate
      (resultStore exAttDb (check_in 10 5 8 exAttDb)).attendances ∧
    uniquePerEmployeeDate
      (resultStore exAttDb (manual_attendance_entry exManualPayload exAttDb)).attendances :=
  ⟨by decide,
   (attendance_unique_per_day_preserved exAttDb (by decide) 10 5 8 exManualPayload).1,
   (attendance_unique_per_day_preserved exAttDb (by decide) 10 5 8 exManualPayload).2⟩

theorem update_fields_self (a : Attendance) (ci co : Option Nat)
    (st : AttendanceStatus) (nt : Option String)
    (h1 : a.check_in_time = ci) (h2 : a.check_out_time = co)
    (h3 : a.status = st) (h4 : a.notes = nt) :
    ({ a with
       check_in_time := ci
       check_out_time := co
       status := st
       notes := nt }) = a := by
  cases a
  simp_all

/-- Claim C3: for an employee with a profile, check-in fails with a
Conflict error exactly when the attendance record for today already has a
check-in time; a record for today without a check-in time is overwritten
in place to status present with the current timestamp; with no record for
today, a new record is created with status present, the check-in
timestamp and no check-out. -/
theorem check_in_contract (db : AttendanceStore)
    (current_user_id today now : Nat) (ep : EmployeeProfile)
    (hp : db.profiles.find? (fun p => p.user_id == current_user_id) = some ep) :
    ((∃ a, db.attendances.find? (attFilter ep.id today) = some a ∧
        a.check_in_time.isSome = true) ↔
      (∃ msg, check_in current_user_id today now db =
        .error (ApiError.conflict msg))) ∧
    (∀ a, db.attendances.find? (attFilter ep.id today) = some a →
      a.check_in_time = none →
      check_in current_user_id today now db =
        .ok ({ db with attendances := (replaceFirst (attFilter ep.id today)
                 ({ a with
                    check_in_time := some now
                    status := AttendanceStatus.present }) db.attendances) },
             { a with
               check_in_time := some now
               status := AttendanceStatus.present })) ∧
    (db.attendances.find? (attFilter ep.id today) = none →
      ∃ db2 r, check_in current_user_id today now db = .ok (db2, r) ∧
        r.employee_profile_id = ep.id ∧ r.date = today ∧
        r.check_in_time = some now ∧ r.check_out_time = none ∧
        r.status = AttendanceStatus.present ∧
        db2.attendances = db.attendances ++ [r] ∧
        db2.profiles = db.profiles) := by
  refine ⟨⟨?_, ?_⟩, ?_, ?_⟩
  · rintro ⟨a, ha, hc⟩
    exact ⟨"Already checked in for today", by simp [check_in, hp, ha, hc]⟩
  · rintro ⟨msg, hmsg⟩
    cases hfa : db.attendances.find? (attFilter ep.id today) with
    | none => simp [check_in, hp, hfa] at hmsg
    | some a =>
      by_cases hc : a.check_in_time.isSome = true
      · exact ⟨a, rfl, hc⟩
      · simp [check_in, hp, hfa, hc] at hmsg
  · intro a ha hnone
    simp [check_in, hp, ha, hnone]
  · intro hfa
    simp only [check_in, hp, hfa]
    exact ⟨_, _, rfl, rfl, rfl, rfl, rfl, rfl, rfl, rfl⟩

/-- Witness for C3 at a concrete store with no record for the day. -/
theorem check_in_contract_witness :
    (exAttDb.profiles.find? (fun p => p.user_id == 10) =
      some { id := 1, user_id := 10 }) ∧
    (exAttDb.attendances.find? (attFilter 1 5) = none) ∧
    (∃ db2 r, check_in 10 5 8 exAttDb = .ok (db2, r) ∧
      r.employee_profile_id = 1 ∧ r.date = 5 ∧
      r.check_in_time = some 8 ∧ r.check_out_time = none ∧
      r.status = AttendanceStatus.present ∧
      db2.attendances = exAttDb.attendances ++ [r] ∧
      db2.profiles = exAttDb.profiles) :=
  ⟨by decide, by decide,
   (check_in_contract exAttDb 10 5 8 { id := 1, user_id := 10 }
     (by decide)).2.2 (by decide)⟩

/-- Claim C4: for an employee with a profile, check-out fails with a
Conflict error when no record with a check-in exists for today, fails with
a Conflict error when a check-out is already recorded, and otherwise sets
the check-out timestamp in place, leaving the status (and every other
field but the check-out time) unchanged. -/
theorem check_out_contract (db : AttendanceStore)
    (current_user_id today now : Nat) (ep : EmployeeProfile)
    (hp : db.profiles.find? (fun p => p.user_id == current_user_id) = some ep) :
    (db.attendances.find? (attFilter ep.id today) = none →
      check_out current_user_id today now db =
        .error (ApiError.conflict "You have not checked in today")) ∧
    (∀ a, db.attendances.find? (attFilter ep.id today) = some a →
      a.check_in_time = none →
      check_out current_user_id today now db =
        .error (ApiError.conflict "You have not checked in today")) ∧
    (∀ a, db.attendances.find? (attFilter ep.id today) = some a →
      a.check_in_time.isSome = true → a.check_out_time.isSome = true →
      check_out current_user_id today now db =
        .error (ApiError.conflict "Already checked out for today")) ∧
    (∀ a, db.attendances.find? (attFilter ep.id today) = some a →
      a.check_in_time.isSome = true → a.check_out_time = none →
      ∃ db2 r, check_out current_user_id today now db = .ok (db2, r) ∧
        r.check_out_time = some now ∧ r.status = a.status ∧
        r.check_in_time = a.check_in_time ∧ r.id = a.id ∧
        r.employee_profile_id = a.employee_profile_id ∧ r.date = a.date ∧
        r.notes = a.notes ∧
        db2.attendances = (replaceFirst (attFilter ep.id today) r db.attendances) ∧
        db2.profiles = db.profiles) := by
  refine ⟨?_, ?_, ?_, ?_⟩
  · intro hfa
    simp [check_out, hp, hfa]
  · intro a ha hnone
    simp [check_out, hp, ha, hnone]
  · intro a ha hci hco
    have : a.check_in_time.isNone = false := by
      cases hv : a.check_in_time <;> simp_all
    simp [check_out, hp, ha, this, hco]
  · intro a ha hci hco
    have hin : a.check_in_time.isNone = false := by
      cases hv : a.check_in_time <;> simp_all
    simp only [check_out, hp, ha, hin, Bool.false_eq_true, if_false, hco,
      Option.isSome_none]
    exact ⟨_, _, rfl, rfl, rfl, rfl, rfl, rfl, rfl, rfl, rfl, rfl⟩

/-- Witness for C4 at a concrete store whose record for the day has a
check-in and no check-out. -/
theorem check_out_contract_witness :
    (exAttDb2.profiles.find? (fun p => p.user_id == 10) =
      some { id := 1, user_id := 10 }) ∧
    (exAttDb2.attendances.find? (attFilter 1 5) = some exAttRow) ∧
    (exAttRow.check_in_time.isSome = true) ∧ (exAttRow.check_out_time = none) ∧
    (∃ db2 r, check_out 10 5 17 exAttDb2 = .ok (db2, r) ∧
      r.check_out_time = some 17 ∧ r.status = exAttRow.status ∧
      r.check_in_time = exAttRow.check_in_time ∧ r.id = exAttRow.id ∧
      r.employee_profile_id = exAttRow.employee_profile_id ∧
      r.date = exAttRow.date ∧ r.notes = exAttRow.notes ∧
      db2.attendances = (replaceFirst (attFilter 1 5) r exAttDb2.attendances) ∧
      db2.profiles = exAttDb2.profiles) :=
  ⟨by decide, by decide, by decide, by decide,
   (check_out_contract exAttDb2 10 5 17 { id := 1, user_id := 10 }
     (by decide)).2.2.2 exAttRow (by decide) (by decide) (by decide)⟩

/-- Claim C6: manual attendance entry is idempotent: a second call with
the identical payload returns the same record and leaves the store in the
same final state as the first successful call (upsert semantics: the
second call overwrites check-in time, check-out time, status and notes
with the same values). -/
theorem manual_attendance_entry_idempotent
    (attendance_in : AttendanceManualCreate) (db db1 : AttendanceStore)
    (r1 : Attendance)
    (h : manual_attendance_entry attendance_in db = .ok (db1, r1)) :
    manual_attendance_entry attendance_in db1 = .ok (db1, r1) := by
  cases hp : db.profiles.find? (fun p => p.id == attendance_in.employee_profile_id) with
  | none => simp [manual_attendance_entry, hp] at h
  | some ep =>
    cases ha : db.attendances.find?
        (attFilter attendance_in.employee_profile_id attendance_in.date) with
    | some a =>
      have hq : attFilter attendance_in.employee_profile_id attendance_in.date a
          = true := List.find?_some ha
      simp only [manual_attendance_entry, hp, ha, Except.ok.injEq,
        Prod.mk.injEq] at h
      obtain ⟨hdb1, hr1⟩ := h
      have hq2 : attFilter attendance_in.employee_profile_id attendance_in.date
          ({ a with
             check_in_time := attendance_in.check_in_time
             check_out_time := attendance_in.check_out_time
             status := attendance_in.status
             notes := attendance_in.notes }) = true := by
        simpa [attFilter] using hq
      have hfind2 := find?_replaceFirst_self _ _ hq2 db.attendances a ha
      subst hdb1
      subst hr1
      simp only [manual_attendance_entry, hp, hfind2]
      rw [replaceFirst_replaceFirst _ _ hq2]
    | none =>
      simp only [manual_attendance_entry, hp, ha, Except.ok.injEq,
        Prod.mk.injEq] at h
      obtain ⟨hdb1, hr1⟩ := h
      have hq2 : attFilter attendance_in.employee_profile_id attendance_in.date
          ({ id := db.nextId
             employee_profile_id := attendance_in.employee_profile_id
             date := attendance_in.date
             check_in_time := attendance_in.check_in_time
             check_out_time := attendance_in.check_out_time
             status := attendance_in.status
             notes := attendance_in.notes }) = true := by
        simp [attFilter]
      have hfind2 := find?_append_of_none _ db.attendances _ ha hq2
      subst hdb1
      subst hr1
      simp only [manual_attendance_entry, hp, hfind2]
      rw [replaceFirst_append_of_none _ _ _ ha]

/-- Witness for C6 at a concrete store and payload. -/
theorem manual_attendance_entry_idempotent_witness :
    (manual_attendance_entry exManualPayload exAttDb =
      .ok ((resultStore exAttDb (manual_attendance_entry exManualPayload exAttDb)),
        { id := 0
          employee_profile_id := 1
          date := 5
          check_in_time := some 8
          check_out_time := some 17
          status := AttendanceStatus.half_day
          notes := some "edited" })) ∧
    (manual_attendance_entry exManualPayload
        (resultStore exAttDb (manual_attendance_entry exManualPayload exAttDb)) =
      .ok ((resultStore exAttDb (manual_attendance_entry exManualPayload exAttDb)),
        { id := 0
          employee_profile_id := 1
          date := 5
          check_in_time := some 8
          check_out_time := some 17
          status := AttendanceStatus.half_day
          notes := some "edited" })) :=
  ⟨by rfl,
   manual_attendance_entry_idempotent exManualPayload exAttDb _ _ (by rfl)⟩

/-- Claim C5: approving a correction request is valid only from the
pending state: a non-pending request yields a Conflict error, a second
approval of the same request always fails with Conflict, and a successful
approval marks the request approved with reviewer identity and timestamp
and copies the requested check-in and check-out times verbatim onto the
target attendance record, with no validation that check-out exceeds
check-in. -/
theorem approve_correction_contract (db : CorrectionStore)
    (request_id current_user_id now : Nat) (req : AttendanceCorrectionRequest)
    (hr : db.requests.find? (fun r => r.id == request_id) = some req) :
    (req.status ≠ CorrectionRequestStatus.pending →
      approve_correction_request request_id current_user_id now db =
        .error (ApiError.conflict "Request is not pending")) ∧
    (req.status = CorrectionRequestStatus.pending →
      ∃ db2 req2,
        approve_correction_request request_id current_user_id now db =
          .ok (db2, req2) ∧
        req2.status = CorrectionRequestStatus.approved ∧
        req2.reviewed_by_id = some current_user_id ∧
        req2.reviewed_at = some now ∧
        req2.id = req.id ∧
        req2.attendance_id = req.attendance_id ∧
        req2.requested_check_in_time = req.requested_check_in_time ∧
        req2.requested_check_out_time = req.requested_check_out_time ∧
        (∀ att, db.attendances.find? (fun a => a.id == req.attendance_id) =
            some att →
          db2.attendances = (replaceFirst (fun a => a.id == req.attendance_id)
            ({ att with
               check_in_time := req.requested_check_in_time
               check_out_time := req.requested_check_out_time })
            db.attendances)) ∧
        (∀ uid2 now2,
          approve_correction_request request_id uid2 now2 db2 =
            .error (ApiError.conflict "Request is not pending"))) := by
  constructor
  · intro hnp
    simp [approve_correction_request, hr, hnp]
  · intro hpend
    have hbne : (req.status != CorrectionRequestStatus.pending) = false := by
      simp [hpend]
    have hq : ((fun r => r.id == request_id)
        ({ req with
           status := CorrectionRequestStatus.approved
           reviewed_by_id := some current_user_id
           reviewed_at := some now } : AttendanceCorrectionRequest)) = true := by
      simpa using List.find?_some hr
    have hfind2 := find?_replaceFirst_self (fun r => r.id == request_id)
      ({ req with
         status := CorrectionRequestStatus.approved
         reviewed_by_id := some current_user_id
         reviewed_at := some now }) hq db.requests req hr
    simp only [approve_correction_request, hr, hbne, Bool.false_eq_true,
      if_false, ite_false]
    refine ⟨_, _, rfl, rfl, rfl, rfl, rfl, rfl, rfl, rfl, ?_, ?_⟩
    · intro att hatt
      simp [hatt]
    · intro uid2 now2
      simp [approve_correction_request, hfind2]

/-- Witness for C5 at a concrete store with a pending request and an
existing target attendance row. -/
theorem approve_correction_contract_witness :
    (exCorrDb.requests.find? (fun r => r.id == 3) = some exCorrReq) ∧
    (exCorrReq.status = CorrectionRequestStatus.pending) ∧
    (∃ db2 req2,
      approve_correction_request 3 77 100 exCorrDb = .ok (db2, req2) ∧
      req2.status = CorrectionRequestStatus.approved ∧
      req2.reviewed_by_id = some 77 ∧
      req2.reviewed_at = some 100 ∧
      req2.id = exCorrReq.id ∧
      req2.attendance_id = exCorrReq.attendance_id ∧
      req2.requested_check_in_time = exCorrReq.requested_check_in_time ∧
      req2.requested_check_out_time = exCorrReq.requested_check_out_time ∧
      (∀ att, exCorrDb.attendances.find? (fun a => a.id == exCorrReq.attendance_id) =
          some att →
        db2.attendances = (replaceFirst (fun a => a.id == exCorrReq.attendance_id)
          ({ att with
             check_in_time := exCorrReq.requested_check_in_time
             check_out_time := exCorrReq.requested_check_out_time })
          exCorrDb.attendances)) ∧
      (∀ uid2 now2,
        approve_correction_request 3 uid2 now2 db2 =
          .error (ApiError.conflict "Request is not pending"))) :=
  ⟨by decide, by decide,
   (approve_correction_contract exCorrDb 3 77 100 exCorrReq (by decide)).2
     (by decide)⟩

/-- Claim C9: when a pending correction request targets an attendance row
absent from the store, approval still succeeds: the request becomes
approved with reviewer identity and timestamp, the attendance table is
left untouched, and no NotFound error is raised. -/
theorem approve_correction_missing_attendance (db : CorrectionStore)
    (request_id current_user_id now : Nat) (req : AttendanceCorrectionRequest)
    (hr : db.requests.find? (fun r => r.id == request_id) = some req)
    (hpend : req.status = CorrectionRequestStatus.pending)
    (hatt : db.attendances.find? (fun a => a.id == req.attendance_id) = none) :
    ∃ req2,
      approve_correction_request request_id current_user_id now db =
        .ok ({ requests := (replaceFirst (fun r => r.id == request_id) req2
                 db.requests)
               attendances := db.attendances }, req2) ∧
      req2.status = CorrectionRequestStatus.approved ∧
      req2.reviewed_by_id = some current_user_id ∧
      req2.reviewed_at = some now := by
  have hbne : (req.status != CorrectionRequestStatus.pending) = false := by
    simp [hpend]
  simp only [approve_correction_request, hr, hbne, Bool.false_eq_true,
    if_false, ite_false, hatt]
  exact ⟨_, rfl, rfl, rfl, rfl⟩

/-- Witness for C9 at a concrete store whose attendance table is empty. -/
theorem approve_correction_missing_attendance_witness :
    (exCorrDbMissing.requests.find? (fun r => r.id == 3) = some exCorrReq) ∧
    (exCorrReq.status = CorrectionRequestStatus.pending) ∧
    (exCorrDbMissing.attendances.find?
      (fun a => a.id == exCorrReq.attendance_id) = none) ∧
    (∃ req2,
      approve_correction_request 3 77 100 exCorrDbMissing =
        .ok ({ requests := (replaceFirst (fun r => r.id == 3) req2
                 exCorrDbMissing.requests)
               attendances := exCorrDbMissing.attendances }, req2) ∧
      req2.status = CorrectionRequestStatus.approved ∧
      req2.reviewed_by_id = some 77 ∧
      req2.reviewed_at = some 100) :=
  ⟨by decide, by decide, by decide,
   approve_correction_missing_attendance exCorrDbMissing 3 77 100 exCorrReq
     (by decide) (by decide) (by decide)⟩

/-- Counterexample to claim C7 as stated: on GET /users/(id) and PUT
/users/(id) a privileged hr_officer who is not the resource owner is NOT
allowed: the handlers test only for the admin role, so the hr_officer
caller with id 1 asking for user 2 receives Forbidden on both. -/
theorem users_endpoint_hr_officer_forbidden :
    read_user 2 exHrOfficer exUsers =
      .error (ApiError.forbidden "Not authorized to access this user profile") ∧
    update_user 2 exNoUpdate exHrOfficer (fun s => s) exUsers =
      .error (ApiError.forbidden "Not authorized to update this user") :=
  ⟨rfl, rfl⟩

/-- Claim C7 (amended): on GET /users/(id) and PUT /users/(id) the gate
is self-or-admin, not the self-or-privileged rule: when the target user
exists, the resource owner and any admin are allowed, while every other
caller — an hr_officer included — receives a Forbidden error. -/
theorem users_endpoint_self_or_admin (users : List User) (user_id : Nat)
    (current_user : User) (user_in : UserUpdate) (hash : String → String)
    (target : User)
    (hfind : users.find? (fun u => u.id == user_id) = some target) :
    ((current_user.id = user_id ∨ current_user.role = UserRole.admin) →
      read_user user_id current_user users = .ok target ∧
      (update_user user_id user_in current_user hash users).isOk = true) ∧
    (current_user.id ≠ user_id → current_user.role ≠ UserRole.admin →
      read_user user_id current_user users =
        .error (ApiError.forbidden "Not authorized to access this user profile") ∧
      update_user user_id user_in current_user hash users =
        .error (ApiError.forbidden "Not authorized to update this user")) := by
  constructor
  · intro hok
    have hguard : (current_user.id != user_id &&
        current_user.role != UserRole.admin) = false := by
      rcases hok with h | h <;> simp [h]
    constructor
    · simp [read_user, hfind, hguard]
    · simp [update_user, hfind, hguard, Except.isOk, Except.toBool]
  · intro h1 h2
    have hguard : (current_user.id != user_id &&
        current_user.role != UserRole.admin) = true := by
      simp [h1, h2]
    constructor
    · simp [read_user, hfind, hguard]
    · simp [update_user, hfind, hguard]

/-- Witness for the amended C7: an admin who is not the owner is allowed
through on both endpoints for the concrete users table. -/
theorem users_endpoint_self_or_admin_witness :
    (exUsers.find? (fun u => u.id == 2) = some exEmployeeUser) ∧
    (exAdmin.id = 2 ∨ exAdmin.role = UserRole.admin) ∧
    (read_user 2 exAdmin exUsers = .ok exEmployeeUser ∧
      (update_user 2 exNoUpdate exAdmin (fun s => s) exUsers).isOk = true) :=
  ⟨by rfl, Or.inr rfl,
   (users_endpoint_self_or_admin exUsers 2 exAdmin exNoUpdate (fun s => s)
     exEmployeeUser (by rfl)).1 (Or.inr rfl)⟩

/-- Claim C8: user settings are created lazily with default values
(notifications on, light theme, English): GET /settings/me is total,
returning the stored row when it exists and otherwise inserting and
returning a fresh default row, and registration inserts a default
settings row for the newly created user. -/
theorem settings_lazy_defaults (current_user : User) (db : SettingsStore)
    (user : UserCreate) (hash : String → String) :
    (∀ s, db.settings.find? (fun s => s.user_id == current_user.id) = some s →
      get_my_settings current_user db = (db, s)) ∧
    (db.settings.find? (fun s => s.user_id == current_user.id) = none →
      get_my_settings current_user db =
        ({ db with
           settings := (db.settings ++
             [defaultUserSettings db.nextSettingsId current_user.id])
           nextSettingsId := db.nextSettingsId + 1 },
         defaultUserSettings db.nextSettingsId current_user.id) ∧
      (defaultUserSettings db.nextSettingsId current_user.id).receive_notifications
        = true ∧
      (defaultUserSettings db.nextSettingsId current_user.id).theme = "light" ∧
      (defaultUserSettings db.nextSettingsId current_user.id).language = "en") ∧
    (∀ db2 u, register_user user hash db = .ok (db2, u) →
      db2.settings = db.settings ++
        [defaultUserSettings db.nextSettingsId u.id]) := by
  refine ⟨?_, ?_, ?_⟩
  · intro s hs
    simp [get_my_settings, hs]
  · intro hn
    exact ⟨by simp [get_my_settings, hn], rfl, rfl, rfl⟩
  · intro db2 u h
    cases hf : db.users.find? (fun x => x.email == user.email) with
    | some w => simp [register_user, hf] at h
    | none =>
      simp only [register_user, hf, Except.ok.injEq, Prod.mk.injEq] at h
      obtain ⟨hdb2, hu⟩ := h
      subst hdb2
      subst hu
      rfl

/-- Witness for C8 at a concrete store with no settings row and a fresh
registration email. -/
theorem settings_lazy_defaults_witness :
    (exSettingsDb.settings.find? (fun s => s.user_id == exSettingsUser.id)
      = none) ∧
    (get_my_settings exSettingsUser exSettingsDb =
      ({ exSettingsDb with
         settings := (exSettingsDb.settings ++
           [defaultUserSettings exSettingsDb.nextSettingsId exSettingsUser.id])
         nextSettingsId := exSettingsDb.nextSettingsId + 1 },
       defaultUserSettings exSettingsDb.nextSettingsId exSettingsUser.id) ∧
      (defaultUserSettings exSettingsDb.nextSettingsId
        exSettingsUser.id).receive_notifications = true ∧
      (defaultUserSettings exSettingsDb.nextSettingsId
        exSettingsUser.id).theme = "light" ∧
      (defaultUserSettings exSettingsDb.nextSettingsId
        exSettingsUser.id).language = "en") :=
  ⟨by rfl,
   (settings_lazy_defaults exSettingsUser exSettingsDb exUserCreate
     (fun s => s)).2.1 (by rfl)⟩

/-- Claim C10: PUT /settings/me does not lazily create settings: with no
settings row for the caller it fails with NotFound (the handler aborts
before any write, so the store is unchanged), while GET /settings/me for
the same caller succeeds by inserting the default row. -/
theorem update_settings_requires_row (current_user : User)
    (db : SettingsStore) (settings_update : UserSettingsUpdate)
    (h : db.settings.find? (fun s => s.user_id == current_user.id) = none) :
    update_my_settings settings_update current_user db =
      .error (ApiError.notFound "User settings not found") ∧
    get_my_settings current_user db =
      ({ db with
         settings := (db.settings ++
           [defaultUserSettings db.nextSettingsId current_user.id])
         nextSettingsId := db.nextSettingsId + 1 },
       defaultUserSettings db.nextSettingsId current_user.id) := by
  constructor
  · simp [update_my_settings, h]
  · simp [get_my_settings, h]

/-- Witness for C10 at a concrete store with no settings row for the
caller. -/
theorem update_settings_requires_row_witness :
    (exSettingsDb.settings.find? (fun s => s.user_id == exSettingsUser.id)
      = none) ∧
    (update_my_settings exSettingsUpdate exSettingsUser exSettingsDb =
      .error (ApiError.notFound "User settings not found") ∧
    get_my_settings exSettingsUser exSettingsDb =
      ({ exSettingsDb with
         settings := (exSettingsDb.settings ++
           [defaultUserSettings exSettingsDb.nextSettingsId exSettingsUser.id])
         nextSettingsId := exSettingsDb.nextSettingsId + 1 },
       defaultUserSettings exSettingsDb.nextSettingsId exSettingsUser.id)) :=
  ⟨by rfl,
   update_settings_requires_row exSettingsUser exSettingsDb exSettingsUpdate
     (by rfl)⟩
